import Mathlib

set_option maxRecDepth 4000

/-!
Verification of the DolbyIOVirtualWorldsDebug repository against its
natural-language specification.

The repository is an Unreal Engine bug-reproduction project: two README
documents describing reproduction steps, two `Target.cs` build targets, an
empty `AGameModeBase` subclass, and a vendored copy of the DolbyIO Comms C++
SDK public headers.  The only executable logic present in the source tree is
a handful of small inline member functions in the vendored headers
(`conference_status_updated::is_ended`, the `logger_sink` level accessors,
a few comparison operators and constructors); everything else is declaration
only, implemented in the external closed-source SDK binary.

This file shallowly embeds those pieces and the repository's file/class
inventory, and proves or refutes the frozen claims about them.
-/

namespace DolbyIODebug

/-! ## The conference status enumeration and the status-updated event

Embedded from
`Plugins/DolbyIO/sdk-release/include/dolbyio/comms/conference.h`:
`enum class conference_status` lists, in order, creating, created, joining,
joined, leaving, left, destroyed, error. -/

inductive conference_status where
  | creating
  | created
  | joining
  | joined
  | leaving
  | left
  | destroyed
  | error
deriving DecidableEq, Repr

/-- Embeds `struct conference_status_updated` from `conference.h`: the
constructor stores the status value and the (defaulted) conference id. -/
structure conference_status_updated where
  status : conference_status
  id : String := ""
deriving DecidableEq, Repr

/-- Embeds the inline body of `conference_status_updated::is_ended` from
`conference.h` lines 199-203:
`return status == conference_status::left || status == conference_status::error || status == conference_status::destroyed;`. -/
def conference_status_updated.is_ended (e : conference_status_updated) : Bool :=
  e.status == conference_status.left ||
  e.status == conference_status.error ||
  e.status == conference_status.destroyed

/-! ## The logger sink

Embedded from
`Plugins/DolbyIO/sdk-release/include/dolbyio/comms/logger_sink.h`.  The
`log_level` enumeration itself is declared in `dolbyio/comms/log_level.h`,
a header the repository does not vendor; `logger_sink` only compares levels
with the C++ `<=` operator, which for an enum acts on the underlying
integral value, so a level is embedded as that underlying value. -/

abbrev log_level := Nat

/-- Embeds `class logger_sink`: the constructor `logger_sink(log_level level)`
initialises the private member `level_`. -/
structure logger_sink where
  level_ : log_level
deriving DecidableEq, Repr

/-- Embeds the inline body `bool is_enabled(log_level level) const := level <= level_`. -/
def logger_sink.is_enabled (s : logger_sink) (level : log_level) : Bool :=
  decide (level ≤ s.level_)

/-- Embeds the inline body `log_level get_level() const := level_`. -/
def logger_sink.get_level (s : logger_sink) : log_level :=
  s.level_

/-- Embeds the inline body `void set_level(log_level level) := level_ = level`,
as a state transformer on the sink. -/
def logger_sink.set_level (s : logger_sink) (level : log_level) : logger_sink :=
  { s with level_ := level }

/-! ## Repository-defined classes

The repository itself defines exactly three types: the empty game-mode stub
`ADolbyIODebugGameModeBase` (in `Source/DolbyIODebug/DolbyIODebugGameModeBase.h`)
and the two build-target classes `DolbyIODebugTarget` and
`DolbyIODebugEditorTarget` (in the `Target.cs` files).  Each is embedded as a
declaration record listing its base class, its own declared members, and the
virtual methods it overrides, all read off the class body in the source. -/

structure CppClassDecl where
  name : String
  baseClass : Option String
  declaredMembers : List String
  overriddenVirtuals : List String
deriving DecidableEq, Repr

/-- Embeds `class DOLBYIODEBUG_API ADolbyIODebugGameModeBase : public AGameModeBase`:
the body holds only the `GENERATED_BODY()` marker, so the class declares no
members and overrides no virtual methods. -/
def aDolbyIODebugGameModeBaseDecl : CppClassDecl :=
  { name := "ADolbyIODebugGameModeBase"
    baseClass := some "AGameModeBase"
    declaredMembers := []
    overriddenVirtuals := [] }

/-- Embeds `public class DolbyIODebugTarget : TargetRules` from
`Source/DolbyIODebug.Target.cs`: the only declared member is the constructor;
nothing virtual is overridden. -/
def dolbyIODebugTargetDecl : CppClassDecl :=
  { name := "DolbyIODebugTarget"
    baseClass := some "TargetRules"
    declaredMembers := ["DolbyIODebugTarget(TargetInfo)"]
    overriddenVirtuals := [] }

/-- Embeds `public class DolbyIODebugEditorTarget : TargetRules` from
`Source/DolbyIODebugEditor.Target.cs`: the only declared member is the
constructor; nothing virtual is overridden. -/
def dolbyIODebugEditorTargetDecl : CppClassDecl :=
  { name := "DolbyIODebugEditorTarget"
    baseClass := some "TargetRules"
    declaredMembers := ["DolbyIODebugEditorTarget(TargetInfo)"]
    overriddenVirtuals := [] }

/-- Every type the repository's own source files define. -/
def repositoryDefinedClasses : List CppClassDecl :=
  [aDolbyIODebugGameModeBaseDecl, dolbyIODebugTargetDecl, dolbyIODebugEditorTargetDecl]

/-- Virtual dispatch over a declaration record: a call on the subclass uses the
subclass's implementation when the method is listed among its overridden
virtuals and falls through to the base-class implementation otherwise. -/
def dispatchMethod {St : Type} (decl : CppClassDecl)
    (baseImpl subImpl : String → St → St) (op : String) : St → St :=
  if op ∈ decl.overriddenVirtuals then subImpl op else baseImpl op

/-! ## The Unreal build targets

Embedded from `Source/DolbyIODebug.Target.cs` and
`Source/DolbyIODebugEditor.Target.cs`.  A `TargetRules` value carries the
fields the two constructors touch, plus a type parameter `α` standing for all
remaining inherited `TargetRules` state, so "performs no other action" is the
statement that the `α` component and the pre-existing module list pass
through the constructors untouched. -/

inductive TargetType where
  | Game
  | Editor
  | Client
  | Server
  | Program
deriving DecidableEq, Repr

inductive BuildSettingsVersion where
  | V1
  | V2
deriving DecidableEq, Repr

inductive EngineIncludeOrderVersion where
  | Unreal5_0
  | Unreal5_1
  | Unreal5_2
deriving DecidableEq, Repr

structure TargetRules (α : Type) where
  targetType : Option TargetType
  DefaultBuildSettings : Option BuildSettingsVersion
  IncludeOrderVersion : Option EngineIncludeOrderVersion
  ExtraModuleNames : List String
  inheritedState : α

/-- Embeds the body of `DolbyIODebugTarget(TargetInfo Target) : base(Target)`:
set `Type` to `TargetType.Game`, `DefaultBuildSettings` to
`BuildSettingsVersion.V2`, `IncludeOrderVersion` to
`EngineIncludeOrderVersion.Unreal5_1`, and add `"DolbyIODebug"` to
`ExtraModuleNames`. -/
def DolbyIODebugTarget_ctor {α : Type} (base : TargetRules α) : TargetRules α :=
  { base with
    targetType := some TargetType.Game
    DefaultBuildSettings := some BuildSettingsVersion.V2
    IncludeOrderVersion := some EngineIncludeOrderVersion.Unreal5_1
    ExtraModuleNames := base.ExtraModuleNames ++ ["DolbyIODebug"] }

/-- Embeds the body of `DolbyIODebugEditorTarget(TargetInfo Target) : base(Target)`:
identical to the game target except that `Type` is set to
`TargetType.Editor`. -/
def DolbyIODebugEditorTarget_ctor {α : Type} (base : TargetRules α) : TargetRules α :=
  { base with
    targetType := some TargetType.Editor
    DefaultBuildSettings := some BuildSettingsVersion.V2
    IncludeOrderVersion := some EngineIncludeOrderVersion.Unreal5_1
    ExtraModuleNames := base.ExtraModuleNames ++ ["DolbyIODebug"] }

/-! ## The README reproduction procedures

The repository carries two README documents, one per reported bug.  Each is
embedded as the ordered list of its bullet points under "Steps to
reproduce", one constructor per kind of step. -/

inductive BugObservation where
  | outputLogError
  | incorrectDeviceSelection
deriving DecidableEq, Repr

inductive ReproStep where
  | ensureTwoVideoDevices
  | cloneRepo
  | addPluginRelease (version : String)
  | setTokenInBlueprint
  | startPIE
  | observe (outcome : BugObservation)
deriving DecidableEq, Repr

/-- Embeds the "Steps to reproduce" list of the README for the
video-device-selection issue: ensure at least two video devices are
connected, clone the repository, download the 1.1.0 plugin release and add
it to the project, enter a valid token in the SetToken node of
BP_Dolby_Debug_Actor, start PIE, and observe that the SDK ignores the video
device passed to Enable Video and uses the system default. -/
def readmeDeviceSelectionSteps : List ReproStep :=
  [ReproStep.ensureTwoVideoDevices,
   ReproStep.cloneRepo,
   ReproStep.addPluginRelease "1.1.0",
   ReproStep.setTokenInBlueprint,
   ReproStep.startPIE,
   ReproStep.observe BugObservation.incorrectDeviceSelection]

/-- Embeds the "Steps to reproduce" list of the README for the Output Log
error issue: clone the repository, download the 1.1.0-beta.9 plugin release
and add it to the project, enter a valid token in the SetToken node of
BP_Dolby_Debug_Actor, start PIE, and check the Output Log for the error. -/
def readmeOutputLogErrorSteps : List ReproStep :=
  [ReproStep.cloneRepo,
   ReproStep.addPluginRelease "1.1.0-beta.9",
   ReproStep.setTokenInBlueprint,
   ReproStep.startPIE,
   ReproStep.observe BugObservation.outputLogError]

/-- The reproduction procedure exactly as the claim lists it: clone the
project, add the referenced plugin release, set the token on the Blueprint
actor, start PIE, and observe the outcome. -/
def claimedReproProcedure (version : String) (outcome : BugObservation) : List ReproStep :=
  [ReproStep.cloneRepo,
   ReproStep.addPluginRelease version,
   ReproStep.setTokenInBlueprint,
   ReproStep.startPIE,
   ReproStep.observe outcome]

/-- The claim C6 formalised: each README's reproduction procedure consists of
exactly the claimed five steps in the claimed order, for some plugin release
version and some observed outcome. -/
def C6_claim : Prop :=
  (∃ v o, readmeDeviceSelectionSteps = claimedReproProcedure v o) ∧
  (∃ v o, readmeOutputLogErrorSteps = claimedReproProcedure v o)

/-! ## Global state and purity of the repository-authored code

The bodies of the two `Target.cs` constructors contain only member
assignments and one list append; the game-mode stub has no body at all.  To
state that the repository's own functions neither read nor write global
mutable state, the constructors are re-embedded with an explicit global
component threaded through: since the source bodies reference no global, the
embedding passes it through untouched and the result does not depend on it. -/

def DolbyIODebugTarget_ctor_withGlobal {α G : Type} (base : TargetRules α) (g : G) :
    TargetRules α × G :=
  (DolbyIODebugTarget_ctor base, g)

def DolbyIODebugEditorTarget_ctor_withGlobal {α G : Type} (base : TargetRules α) (g : G) :
    TargetRules α × G :=
  (DolbyIODebugEditorTarget_ctor base, g)

/-- The claim C7 formalised.  Its first conjunct is purity: the
repository-authored functions are functions of their explicit inputs alone,
leaving any global component unchanged and producing output independent of
it.  Its second conjunct is the assertion that no repository-defined type
derives from another class. -/
def C7_claim : Prop :=
  (∀ (α G : Type) (base : TargetRules α) (g g2 : G),
    (DolbyIODebugTarget_ctor_withGlobal base g).2 = g ∧
    (DolbyIODebugTarget_ctor_withGlobal base g).1 = (DolbyIODebugTarget_ctor_withGlobal base g2).1 ∧
    (DolbyIODebugEditorTarget_ctor_withGlobal base g).2 = g ∧
    (DolbyIODebugEditorTarget_ctor_withGlobal base g).1 =
      (DolbyIODebugEditorTarget_ctor_withGlobal base g2).1) ∧
  (∀ c ∈ repositoryDefinedClasses, c.baseClass = none)

/-! ## Operations declared in the vendored SDK headers

An inventory of every operation (constructor, member function, or free
function) explicitly declared by the vendored header documents of this
source tree.  Compiler-defaulted and deleted members (`= default`,
`= delete`) are omitted, since no body for them is written in any header.
Each entry is flagged with whether its body appears in the header itself
(an inline definition, checkable from this source tree) or only as a
declaration whose implementation lives in the external closed-source SDK
binary (a pure virtual `= 0` method or an out-of-line declaration), and
with whether the operation returns the asynchronous `async_result` type
resolved on the SDK event loop. -/

structure HeaderOperation where
  name : String
  header : String
  implementedInHeader : Bool
  returnsAsyncResult : Bool
deriving DecidableEq, Repr

/-- Shorthand for an inventory entry whose body is written inline in the
header (none of these returns `async_result`). -/
def inlineOp (n h : String) : HeaderOperation :=
  { name := n, header := h, implementedInHeader := true,
    returnsAsyncResult := false }

/-- Shorthand for an inventory entry that is declaration-only, implemented in
the external SDK binary, with a synchronous return type. -/
def externOp (n h : String) : HeaderOperation :=
  { name := n, header := h, implementedInHeader := false,
    returnsAsyncResult := false }

/-- Shorthand for an inventory entry that is declaration-only and returns
`async_result`. -/
def asyncOp (n h : String) : HeaderOperation :=
  { name := n, header := h, implementedInHeader := false,
    returnsAsyncResult := true }

/-- The `is_ended` entry of the inventory: `conference.h` gives its full
inline body. -/
def isEndedOperation : HeaderOperation :=
  inlineOp "conference_status_updated::is_ended" "conference.h"

/-- The asynchronous service methods of `services::conference` declared pure
virtual in `conference.h`, in order of declaration. -/
def conferenceServiceAsyncMethods : List HeaderOperation :=
  [asyncOp "services::conference::demo" "conference.h",
   asyncOp "services::conference::create" "conference.h",
   asyncOp "services::conference::join" "conference.h",
   asyncOp "services::conference::listen" "conference.h",
   asyncOp "services::conference::leave" "conference.h",
   asyncOp "services::conference::send" "conference.h",
   asyncOp "services::conference::mute" "conference.h",
   asyncOp "services::conference::remote_mute" "conference.h",
   asyncOp "services::conference::mute_output" "conference.h",
   asyncOp "services::conference::update_spatial_audio_configuration" "conference.h",
   asyncOp "services::conference::set_spatial_position" "conference.h",
   asyncOp "services::conference::set_spatial_direction" "conference.h",
   asyncOp "services::conference::set_spatial_environment" "conference.h",
   asyncOp "services::conference::get_current_conference" "conference.h",
   asyncOp "services::conference::decline_invitation" "conference.h",
   asyncOp "services::conference::start_screen_share(screen_share_content_type)" "conference.h",
   asyncOp "services::conference::start_screen_share(screen_share_content_info)" "conference.h",
   asyncOp "services::conference::stop_screen_share" "conference.h",
   asyncOp "services::conference::screen_share_content_type" "conference.h",
   asyncOp "services::conference::screen_share_content_info" "conference.h",
   asyncOp "services::conference::start_recording" "conference.h",
   asyncOp "services::conference::stop_recording" "conference.h"]

/-- The `services::conference::add_event_handler` overloads declared pure
virtual in `conference.h`, one per subscribed event type, in order of
declaration; each returns `async_result<event_handler_id>`. -/
def conferenceServiceEventHandlerOverloads : List HeaderOperation :=
  [asyncOp "services::conference::add_event_handler(event_handler<conference_status_updated>)" "conference.h",
   asyncOp "services::conference::add_event_handler(event_handler<remote_participant_added>)" "conference.h",
   asyncOp "services::conference::add_event_handler(event_handler<remote_participant_updated>)" "conference.h",
   asyncOp "services::conference::add_event_handler(event_handler<local_participant_updated>)" "conference.h",
   asyncOp "services::conference::add_event_handler(event_handler<participant_updated>)" "conference.h",
   asyncOp "services::conference::add_event_handler(event_handler<participant_added>)" "conference.h",
   asyncOp "services::conference::add_event_handler(event_handler<active_speaker_changed>)" "conference.h",
   asyncOp "services::conference::add_event_handler(event_handler<video_forwarded_changed>)" "conference.h",
   asyncOp "services::conference::add_event_handler(event_handler<local_video_track_added>)" "conference.h",
   asyncOp "services::conference::add_event_handler(event_handler<remote_video_track_added>)" "conference.h",
   asyncOp "services::conference::add_event_handler(event_handler<local_video_track_removed>)" "conference.h",
   asyncOp "services::conference::add_event_handler(event_handler<remote_video_track_removed>)" "conference.h",
   asyncOp "services::conference::add_event_handler(event_handler<video_track_removed>)" "conference.h",
   asyncOp "services::conference::add_event_handler(event_handler<video_track_added>)" "conference.h",
   asyncOp "services::conference::add_event_handler(event_handler<audio_track_added>)" "conference.h",
   asyncOp "services::conference::add_event_handler(event_handler<audio_track_removed>)" "conference.h",
   asyncOp "services::conference::add_event_handler(event_handler<dvc_error_exception>)" "conference.h",
   asyncOp "services::conference::add_event_handler(event_handler<peer_connection_failed_exception>)" "conference.h",
   asyncOp "services::conference::add_event_handler(event_handler<conference_message_received>)" "conference.h",
   asyncOp "services::conference::add_event_handler(event_handler<conference_invitation_received>)" "conference.h",
   asyncOp "services::conference::add_event_handler(event_handler<audio_levels>)" "conference.h",
   asyncOp "services::conference::add_event_handler(event_handler<recording_status_updated>)" "conference.h"]

/-- The asynchronous methods of `services::device_management` declared pure
virtual in `device_management.h`, in order of declaration. -/
def deviceManagementAsyncMethods : List HeaderOperation :=
  [asyncOp "services::device_management::set_default_audio_device_policy" "device_management.h",
   asyncOp "services::device_management::set_preferred_input_audio_device" "device_management.h",
   asyncOp "services::device_management::set_preferred_output_audio_device" "device_management.h",
   asyncOp "services::device_management::get_audio_devices" "device_management.h",
   asyncOp "services::device_management::get_current_audio_input_device" "device_management.h",
   asyncOp "services::device_management::get_current_audio_output_device" "device_management.h",
   asyncOp "services::device_management::set_input_volume" "device_management.h",
   asyncOp "services::device_management::set_output_volume" "device_management.h",
   asyncOp "services::device_management::get_video_devices" "device_management.h",
   asyncOp "services::device_management::get_current_video_device" "device_management.h",
   asyncOp "services::device_management::get_screen_share_sources" "device_management.h",
   asyncOp "services::device_management::get_current_screen_share_source" "device_management.h"]

/-- The `services::device_management::add_event_handler` overloads declared
pure virtual in `device_management.h`, one per subscribed event type, in
order of declaration; each returns `async_result<event_handler_id>`. -/
def deviceManagementEventHandlerOverloads : List HeaderOperation :=
  [asyncOp "services::device_management::add_event_handler(event_handler<audio_device_added>)" "device_management.h",
   asyncOp "services::device_management::add_event_handler(event_handler<audio_device_removed>)" "device_management.h",
   asyncOp "services::device_management::add_event_handler(event_handler<audio_device_changed>)" "device_management.h",
   asyncOp "services::device_management::add_event_handler(event_handler<video_device_added>)" "device_management.h",
   asyncOp "services::device_management::add_event_handler(event_handler<video_device_removed>)" "device_management.h",
   asyncOp "services::device_management::add_event_handler(event_handler<video_device_changed>)" "device_management.h",
   asyncOp "services::device_management::add_event_handler(event_handler<video_device_error>)" "device_management.h",
   asyncOp "services::device_management::add_event_handler(event_handler<screen_share_error>)" "device_management.h",
   asyncOp "services::device_management::add_event_handler(event_handler<audio_device_timeout_failure>)" "device_management.h",
   asyncOp "services::device_management::add_event_handler(event_handler<audio_volume_changed>)" "device_management.h"]

/-- The operations declared by `media_engine.h` (the second document of
`unnamed/part_002`), in order of declaration. -/
def mediaEngineOperations : List HeaderOperation :=
  [externOp "setJavaVM" "media_engine.h",
   externOp "setContext" "media_engine.h",
   externOp "setFactories" "media_engine.h",
   inlineOp "video_track::operator<" "media_engine.h",
   inlineOp "video_track::operator==" "media_engine.h",
   inlineOp "generic_video_track::generic_video_track(const remote_video_track&)" "media_engine.h",
   inlineOp "generic_video_track::generic_video_track(const local_video_track&)" "media_engine.h",
   inlineOp "camera_device::operator<" "media_engine.h",
   inlineOp "camera_device::operator==" "media_engine.h",
   inlineOp "linear_volume::linear_volume" "media_engine.h",
   inlineOp "linear_volume::get_value" "media_engine.h",
   inlineOp "video_frame_buffer::~video_frame_buffer" "media_engine.h",
   externOp "video_frame_buffer::type" "media_engine.h",
   externOp "video_frame_buffer::width" "media_engine.h",
   externOp "video_frame_buffer::height" "media_engine.h",
   externOp "video_frame_buffer::to_i420" "media_engine.h",
   externOp "video_frame_buffer::get_argb" "media_engine.h",
   externOp "video_frame_buffer::get_i420" "media_engine.h",
   externOp "video_frame_buffer::get_nv12" "media_engine.h",
   externOp "video_frame_buffer::get_native" "media_engine.h",
   externOp "video_frame_buffer_argb_interface::data" "media_engine.h",
   externOp "video_frame_buffer_argb_interface::stride" "media_engine.h",
   externOp "video_frame_buffer_i420_interface::data_y" "media_engine.h",
   externOp "video_frame_buffer_i420_interface::data_u" "media_engine.h",
   externOp "video_frame_buffer_i420_interface::data_v" "media_engine.h",
   externOp "video_frame_buffer_i420_interface::stride_y" "media_engine.h",
   externOp "video_frame_buffer_i420_interface::stride_u" "media_engine.h",
   externOp "video_frame_buffer_i420_interface::stride_v" "media_engine.h",
   externOp "video_frame_buffer_nv12_interface::data_y" "media_engine.h",
   externOp "video_frame_buffer_nv12_interface::data_uv" "media_engine.h",
   externOp "video_frame_buffer_nv12_interface::stride_y" "media_engine.h",
   externOp "video_frame_buffer_nv12_interface::stride_uv" "media_engine.h",
   externOp "video_frame_buffer_native_interface::cv_pixel_buffer_ref" "media_engine.h",
   externOp "video_frame::video_frame(buffer, timestamp_us)" "media_engine.h",
   externOp "video_frame::width" "media_engine.h",
   externOp "video_frame::height" "media_engine.h",
   externOp "video_frame::timestamp_us" "media_engine.h",
   externOp "video_frame::video_frame_buffer" "media_engine.h",
   externOp "encoded_video_frame::data" "media_engine.h",
   externOp "encoded_video_frame::size" "media_engine.h",
   externOp "encoded_video_frame::width" "media_engine.h",
   externOp "encoded_video_frame::height" "media_engine.h",
   externOp "encoded_video_frame::is_keyframe" "media_engine.h",
   externOp "audio_frame::data" "media_engine.h",
   externOp "audio_frame::sample_rate" "media_engine.h",
   externOp "audio_frame::channels" "media_engine.h",
   externOp "audio_frame::samples" "media_engine.h",
   externOp "video_sink::handle_frame" "media_engine.h",
   externOp "video_source::set_sink" "media_engine.h",
   externOp "video_sink_encoded::configure_encoded_sink" "media_engine.h",
   externOp "video_sink_encoded::decoder_configuration" "media_engine.h",
   externOp "video_sink_encoded::handle_frame_encoded" "media_engine.h",
   externOp "audio_sink::handle_audio" "media_engine.h",
   externOp "rtc_audio_source::on_data" "media_engine.h",
   externOp "audio_source::register_audio_frame_rtc_source" "media_engine.h",
   externOp "audio_source::deregister_audio_frame_rtc_source" "media_engine.h",
   externOp "video_frame_handler::sink" "media_engine.h",
   externOp "video_frame_handler::source" "media_engine.h",
   inlineOp "spatial_direction::spatial_direction" "media_engine.h"]

/-- The operations declared by `audio_device.h` (the second document of
`rtcp_mode.h`), in order of declaration. -/
def audioDeviceOperations : List HeaderOperation :=
  [externOp "audio_device::identity::identity(const std::shared_ptr<pimpl>&)" "audio_device.h",
   inlineOp "audio_device::identity::get_impl" "audio_device.h",
   externOp "audio_device::identity::operator==" "audio_device.h",
   externOp "audio_device::identity::operator<" "audio_device.h",
   externOp "audio_device::audio_device" "audio_device.h",
   inlineOp "audio_device::name" "audio_device.h",
   inlineOp "audio_device::direction" "audio_device.h",
   inlineOp "audio_device::operator==(const audio_device&)" "audio_device.h",
   inlineOp "audio_device::operator==(const audio_device::identity&)" "audio_device.h",
   inlineOp "audio_device::operator==(const std::optional<audio_device::identity>&)" "audio_device.h",
   inlineOp "audio_device::native_id" "audio_device.h",
   inlineOp "audio_device::get_identity" "audio_device.h",
   externOp "std::hash<audio_device::identity>::operator()" "audio_device.h"]

/-- The operations declared in the vendored header documents of this source
tree, document by document, with the in-header-implementation and
`async_result` flags read off each declaration. -/
def vendoredHeaderOperations : List HeaderOperation :=
  [inlineOp "deprecated_field::deprecated_field(const T&)" "conference.h",
   inlineOp "deprecated_field::operator*" "conference.h",
   inlineOp "deprecated_field::operator std::optional<T>" "conference.h",
   inlineOp "deprecated_field::operator* const" "conference.h",
   inlineOp "deprecated_field::has_value" "conference.h",
   inlineOp "conference_status_updated::conference_status_updated" "conference.h",
   isEndedOperation] ++
  conferenceServiceAsyncMethods ++
  conferenceServiceEventHandlerOverloads ++
  [inlineOp "logger_sink::logger_sink" "logger_sink.h",
   inlineOp "logger_sink::is_enabled" "logger_sink.h",
   inlineOp "logger_sink::get_level" "logger_sink.h",
   inlineOp "logger_sink::set_level" "logger_sink.h",
   externOp "logger_sink::log" "logger_sink.h",
   inlineOp "audio_capture_mode::unprocessed::operator==" "audio_capture_mode.h",
   inlineOp "audio_capture_mode::standard::standard" "audio_capture_mode.h",
   inlineOp "audio_capture_mode::standard::operator==" "audio_capture_mode.h"] ++
  audioDeviceOperations ++
  mediaEngineOperations ++
  [inlineOp "video_frame_buffer_argb::~video_frame_buffer_argb" "video_frame_buffer_argb.h",
   externOp "video_frame_buffer_argb::create" "video_frame_buffer_argb.h",
   externOp "video_frame_buffer_argb::copy" "video_frame_buffer_argb.h",
   inlineOp "video_frame_buffer_i420::~video_frame_buffer_i420" "video_frame_buffer_i420.h",
   externOp "video_frame_buffer_i420::create" "video_frame_buffer_i420.h",
   externOp "video_frame_buffer_i420::copy" "video_frame_buffer_i420.h",
   inlineOp "video_frame_buffer_nv12::~video_frame_buffer_nv12" "video_frame_buffer_nv12.h",
   externOp "video_frame_buffer_nv12::create" "video_frame_buffer_nv12.h",
   externOp "video_frame_buffer_nv12::copy" "video_frame_buffer_nv12.h"] ++
  deviceManagementAsyncMethods ++
  deviceManagementEventHandlerOverloads ++
  [asyncOp "services::local_video::start" "video.h",
   asyncOp "services::local_video::stop" "video.h",
   asyncOp "services::remote_video::set_video_sink" "video.h",
   externOp "services::video::local" "video.h",
   externOp "services::video::remote" "video.h",
   externOp "plugin::video_processor::set_app_allocator" "video_processor.h",
   externOp "plugin::video_processor::exception::exception" "video_processor.h",
   asyncOp "plugin::video_processor::create" "video_processor.h",
   externOp "plugin::video_processor::~video_processor" "video_processor.h",
   externOp "plugin::video_processor::video_processor" "video_processor.h",
   externOp "plugin::video_processor::sink" "video_processor.h",
   externOp "plugin::video_processor::source" "video_processor.h",
   inlineOp "local_participant_updated::local_participant_updated" "participant_events.h",
   inlineOp "remote_participant_added::remote_participant_added" "participant_events.h",
   inlineOp "remote_participant_updated::remote_participant_updated" "participant_events.h",
   inlineOp "participant_updated::participant_updated" "participant_events.h",
   inlineOp "participant_added::participant_added" "participant_events.h",
   inlineOp "utils::vfs_event::vfs_event" "vfs_event.h",
   externOp "utils::vfs_event::add_event_handler" "vfs_event.h"]

inductive FileKind where
  | buildBoilerplate
  | markdownBugReport
  | vendoredSdkHeader
deriving DecidableEq, Repr

structure RepoSourceFile where
  path : String
  beginsWithMarkdownHeading : Bool
  usesUnrealBuildTool : Bool
  hasGeneratedBody : Bool
  hasPragmaOnce : Bool
  mentionsDolbyioComms : Bool
deriving DecidableEq, Repr

/-- Classifies a source document from its syntactic attributes: Unreal build
or module boilerplate when it uses `UnrealBuildTool` or the
`GENERATED_BODY()` marker, a Markdown bug report when it begins with a
Markdown heading, and a vendored SDK header when it is a `#pragma once`
header mentioning `dolbyio::comms`; anything else is unclassified. -/
def classifyFile (f : RepoSourceFile) : Option FileKind :=
  if f.usesUnrealBuildTool || f.hasGeneratedBody then some FileKind.buildBoilerplate
  else if f.beginsWithMarkdownHeading then some FileKind.markdownBugReport
  else if f.hasPragmaOnce && f.mentionsDolbyioComms then some FileKind.vendoredSdkHeader
  else none

/-- Shorthand for an inventory entry that is a vendored SDK header. -/
def sdkHeaderFile (p : String) : RepoSourceFile :=
  { path := p
    beginsWithMarkdownHeading := false
    usesUnrealBuildTool := false
    hasGeneratedBody := false
    hasPragmaOnce := true
    mentionsDolbyioComms := true }

/-- Shorthand for an inventory entry that is a Markdown bug-report README. -/
def markdownReadmeFile (p : String) : RepoSourceFile :=
  { path := p
    beginsWithMarkdownHeading := true
    usesUnrealBuildTool := false
    hasGeneratedBody := false
    hasPragmaOnce := false
    mentionsDolbyioComms := false }

/-- Shorthand for an inventory entry that is a `Target.cs` build target. -/
def targetCsFile (p : String) : RepoSourceFile :=
  { path := p
    beginsWithMarkdownHeading := false
    usesUnrealBuildTool := true
    hasGeneratedBody := false
    hasPragmaOnce := false
    mentionsDolbyioComms := false }

/-- The game-mode stub header: a `#pragma once` Unreal header whose class
body is just the `GENERATED_BODY()` marker. -/
def gameModeStubFile : RepoSourceFile :=
  { path := "unnamed/part_002/doc0 (DolbyIODebugGameModeBase.h)"
    beginsWithMarkdownHeading := false
    usesUnrealBuildTool := false
    hasGeneratedBody := true
    hasPragmaOnce := true
    mentionsDolbyioComms := false }

/-- Every source document in the repository snapshot. -/
def repositorySourceFiles : List RepoSourceFile :=
  [markdownReadmeFile "unnamed/part_000/doc0 (README, device-selection issue)",
   markdownReadmeFile "unnamed/part_001/doc0 (README, Output Log error issue)",
   targetCsFile "unnamed/part_001/doc1 (DolbyIODebug.Target.cs)",
   targetCsFile "Source/DolbyIODebugEditor.Target.cs",
   gameModeStubFile,
   sdkHeaderFile "unnamed/part_002/doc1 (media_engine.h)",
   sdkHeaderFile "unnamed/part_002/doc2 (video_frame_buffer_argb.h)",
   sdkHeaderFile "unnamed/part_003/doc0 (device_management.h)",
   sdkHeaderFile "unnamed/part_004/doc0 (unreachable-macro header)",
   sdkHeaderFile "unnamed/part_004/doc1 (participant events header)",
   sdkHeaderFile "unnamed/part_004/doc2 (vfs_event utils header)",
   sdkHeaderFile "Plugins/DolbyIO/sdk-release/include/dolbyio/comms/audio_capture_mode.h",
   sdkHeaderFile "Plugins/DolbyIO/sdk-release/include/dolbyio/comms/conference.h",
   sdkHeaderFile "Plugins/DolbyIO/sdk-release/include/dolbyio/comms/conference_message_received.h",
   sdkHeaderFile "Plugins/DolbyIO/sdk-release/include/dolbyio/comms/conference_message_received.h doc1 (active_speaker_changed.h)",
   sdkHeaderFile "Plugins/DolbyIO/sdk-release/include/dolbyio/comms/listen_mode.h",
   sdkHeaderFile "Plugins/DolbyIO/sdk-release/include/dolbyio/comms/logger_sink.h",
   sdkHeaderFile "Plugins/DolbyIO/sdk-release/include/dolbyio/comms/recording_format.h",
   sdkHeaderFile "Plugins/DolbyIO/sdk-release/include/dolbyio/comms/rtcp_mode.h",
   sdkHeaderFile "Plugins/DolbyIO/sdk-release/include/dolbyio/comms/rtcp_mode.h doc1 (audio_device.h)",
   sdkHeaderFile "Plugins/DolbyIO/sdk-release/include/dolbyio/comms/screen_share_content_info.h",
   sdkHeaderFile "Plugins/DolbyIO/sdk-release/include/dolbyio/comms/subscription_events.h",
   sdkHeaderFile "Plugins/DolbyIO/sdk-release/include/dolbyio/comms/video.h",
   sdkHeaderFile "Plugins/DolbyIO/sdk-release/include/dolbyio/comms/video.h doc1 (recording_status_updated.h)",
   sdkHeaderFile "Plugins/DolbyIO/sdk-release/include/dolbyio/comms/video_forward_strategy.h",
   sdkHeaderFile "Plugins/DolbyIO/sdk-release/include/dolbyio/comms/video_forwarded_changed.h",
   sdkHeaderFile "Plugins/DolbyIO/sdk-release/include/dolbyio/comms/video_processor.h",
   sdkHeaderFile "Plugins/DolbyIO/sdk-release/include/dolbyio/comms/media_engine/video_frame_buffer_i420.h",
   sdkHeaderFile "Plugins/DolbyIO/sdk-release/include/dolbyio/comms/media_engine/video_frame_buffer_nv12.h"]

/-! ## The action traces of the repository-authored code

Each repository-authored function body, embedded as the ordered list of the
primitive actions it performs.  The two constructor bodies perform only the
base-constructor call, three property assignments and one module-name
addition; the game-mode stub has no body at all. -/

inductive CodeAction where
  | callBaseConstructor
  | setTargetType (t : TargetType)
  | setDefaultBuildSettings (v : BuildSettingsVersion)
  | setIncludeOrderVersion (v : EngineIncludeOrderVersion)
  | addExtraModuleName (m : String)
  | spawnThread
  | acquireLock
  | runAsyncExecutor
deriving DecidableEq, Repr

/-- The action trace of the `DolbyIODebugTarget` constructor body. -/
def dolbyIODebugTargetCtorActions : List CodeAction :=
  [CodeAction.callBaseConstructor,
   CodeAction.setTargetType TargetType.Game,
   CodeAction.setDefaultBuildSettings BuildSettingsVersion.V2,
   CodeAction.setIncludeOrderVersion EngineIncludeOrderVersion.Unreal5_1,
   CodeAction.addExtraModuleName "DolbyIODebug"]

/-- The action trace of the `DolbyIODebugEditorTarget` constructor body. -/
def dolbyIODebugEditorTargetCtorActions : List CodeAction :=
  [CodeAction.callBaseConstructor,
   CodeAction.setTargetType TargetType.Editor,
   CodeAction.setDefaultBuildSettings BuildSettingsVersion.V2,
   CodeAction.setIncludeOrderVersion EngineIncludeOrderVersion.Unreal5_1,
   CodeAction.addExtraModuleName "DolbyIODebug"]

/-- The action trace of the `ADolbyIODebugGameModeBase` class body, which is
empty. -/
def gameModeBaseBodyActions : List CodeAction := []

/-- Every action performed by code the repository itself authors. -/
def repositoryAuthoredActions : List CodeAction :=
  dolbyIODebugTargetCtorActions ++ dolbyIODebugEditorTargetCtorActions ++
    gameModeBaseBodyActions

/-- An action counts as concurrency coordination when it spawns a thread,
acquires a lock, or runs an asynchronous executor. -/
def isConcurrencyCoordination : CodeAction → Bool
  | CodeAction.spawnThread => true
  | CodeAction.acquireLock => true
  | CodeAction.runAsyncExecutor => true
  | _ => false

end DolbyIODebug

namespace DolbyIODebug

/-- C2: for every `conference_status_updated` event `e`, `e.is_ended()` returns
true if and only if `e.status` is `left`, `error`, or `destroyed`; in
particular it returns false for the `creating`, `created`, `joining`,
`joined`, and `leaving` statuses. -/
theorem C2_is_ended_iff_left_error_destroyed :
    (∀ e : conference_status_updated,
      e.is_ended = true ↔
        (e.status = conference_status.left ∨
         e.status = conference_status.error ∨
         e.status = conference_status.destroyed)) ∧
    (∀ id : String,
      (conference_status_updated.mk conference_status.creating id).is_ended = false ∧
      (conference_status_updated.mk conference_status.created id).is_ended = false ∧
      (conference_status_updated.mk conference_status.joining id).is_ended = false ∧
      (conference_status_updated.mk conference_status.joined id).is_ended = false ∧
      (conference_status_updated.mk conference_status.leaving id).is_ended = false) := by
  constructor
  · intro e
    cases e with
    | mk s i =>
      cases s <;> simp [conference_status_updated.is_ended]
  · intro id
    refine ⟨rfl, rfl, rfl, rfl, rfl⟩

/-- C5: for a `logger_sink` constructed with level `l`, `get_level()` returns
`l`; `is_enabled(x)` returns true iff `x <=` the stored level, so enabled
levels are downward closed; and after `set_level(l2)` the getter returns `l2`
and `is_enabled(x)` equals `x <= l2`. -/
theorem C5_logger_sink_level_contract :
    (∀ l : log_level, (logger_sink.mk l).get_level = l) ∧
    (∀ (s : logger_sink) (x : log_level),
      s.is_enabled x = true ↔ x ≤ s.get_level) ∧
    (∀ (s : logger_sink) (x y : log_level),
      s.is_enabled x = true → y ≤ x → s.is_enabled y = true) ∧
    (∀ (s : logger_sink) (l2 x : log_level),
      (s.set_level l2).get_level = l2 ∧
      ((s.set_level l2).is_enabled x = true ↔ x ≤ l2)) := by
  refine ⟨fun l => rfl, ?_, ?_, ?_⟩
  · intro s x
    simp [logger_sink.is_enabled, logger_sink.get_level]
  · intro s x y hx hyx
    simp only [logger_sink.is_enabled, decide_eq_true_eq] at hx ⊢
    exact le_trans hyx hx
  · intro s l2 x
    refine ⟨rfl, ?_⟩
    simp [logger_sink.is_enabled, logger_sink.set_level, logger_sink.get_level]

/-- Witness for C5: the downward-closure conjunct applied at the sink with
stored level 3, enabled level 3, and the smaller level 2. -/
theorem C5_logger_sink_level_contract_witness :
    (logger_sink.mk 3).is_enabled 2 = true :=
  C5_logger_sink_level_contract.2.2.1 (logger_sink.mk 3) 3 2 (by decide) (by decide)

/-- C3: the GameModeBase subclass `ADolbyIODebugGameModeBase` is an empty
stub declaring no members and overriding no behaviour, so dispatching any
operation through it behaves exactly as dispatching it on the base class
`AGameModeBase`, for every possible base-class implementation, state type,
operation and state. -/
theorem C3_gamemode_stub_observational_equivalence :
    aDolbyIODebugGameModeBaseDecl.declaredMembers = [] ∧
    aDolbyIODebugGameModeBaseDecl.overriddenVirtuals = [] ∧
    (∀ (St : Type) (baseImpl subImpl : String → St → St) (op : String) (s : St),
      dispatchMethod aDolbyIODebugGameModeBaseDecl baseImpl subImpl op s = baseImpl op s) := by
  refine ⟨rfl, rfl, ?_⟩
  intro St baseImpl subImpl op s
  simp [dispatchMethod, aDolbyIODebugGameModeBaseDecl]

/-- C4: the two `Target.cs` constructors set `Type` to `Game` and `Editor`
respectively, both set `DefaultBuildSettings` to `V2` and
`IncludeOrderVersion` to `Unreal5_1`, each adds exactly the one module name
`"DolbyIODebug"`, and neither performs any other action: the pre-existing
module list is only appended to and all remaining inherited state is left
untouched. -/
theorem C4_build_target_constructors :
    ∀ (α : Type) (base : TargetRules α),
      (DolbyIODebugTarget_ctor base).targetType = some TargetType.Game ∧
      (DolbyIODebugEditorTarget_ctor base).targetType = some TargetType.Editor ∧
      (DolbyIODebugTarget_ctor base).DefaultBuildSettings = some BuildSettingsVersion.V2 ∧
      (DolbyIODebugEditorTarget_ctor base).DefaultBuildSettings = some BuildSettingsVersion.V2 ∧
      (DolbyIODebugTarget_ctor base).IncludeOrderVersion = some EngineIncludeOrderVersion.Unreal5_1 ∧
      (DolbyIODebugEditorTarget_ctor base).IncludeOrderVersion = some EngineIncludeOrderVersion.Unreal5_1 ∧
      (DolbyIODebugTarget_ctor base).ExtraModuleNames = base.ExtraModuleNames ++ ["DolbyIODebug"] ∧
      (DolbyIODebugEditorTarget_ctor base).ExtraModuleNames = base.ExtraModuleNames ++ ["DolbyIODebug"] ∧
      (DolbyIODebugTarget_ctor base).inheritedState = base.inheritedState ∧
      (DolbyIODebugEditorTarget_ctor base).inheritedState = base.inheritedState := by
  intro α base
  refine ⟨rfl, rfl, rfl, rfl, rfl, rfl, rfl, rfl, rfl, rfl⟩

/-- Counterexample to C6 as stated: the README for the device-selection issue
does not consist of exactly the five claimed steps — its step list has six
entries, beginning with the extra prerequisite step of ensuring at least two
video devices are connected, whatever version string and outcome are chosen
for the claimed procedure. -/
theorem C6_counterexample_extra_prerequisite_step : ¬ C6_claim := by
  rintro ⟨⟨v, o, h⟩, -⟩
  have hlen := congrArg List.length h
  simp [readmeDeviceSelectionSteps, claimedReproProcedure] at hlen

/-- C6 amended: the Output Log error README consists of exactly the five
claimed steps in the claimed order (with release 1.1.0-beta.9 and the Output
Log error observation), and the device-selection README consists of exactly
those five steps (with release 1.1.0 and the incorrect-device-selection
observation) preceded by one additional prerequisite step, ensuring that at
least two video devices are connected. -/
theorem C6_amended_reproduction_procedures :
    readmeOutputLogErrorSteps =
      claimedReproProcedure "1.1.0-beta.9" BugObservation.outputLogError ∧
    readmeDeviceSelectionSteps =
      ReproStep.ensureTwoVideoDevices ::
        claimedReproProcedure "1.1.0" BugObservation.incorrectDeviceSelection := by
  exact ⟨rfl, rfl⟩

/-- Counterexample to C7 as stated: the claim asserts that no
repository-defined type derives from another class, yet
`ADolbyIODebugGameModeBase` is declared `public AGameModeBase`, so its base
class is not `none`. -/
theorem C7_counterexample_gamemode_derives_from_base : ¬ C7_claim := by
  rintro ⟨-, hder⟩
  have h := hder aDolbyIODebugGameModeBaseDecl (by simp [repositoryDefinedClasses])
  simp [aDolbyIODebugGameModeBaseDecl] at h

/-- C7 amended: the repository-authored functions are pure functions of their
explicit inputs, reading and writing no global state, and every
repository-defined type derives only from an external framework base class
(`AGameModeBase` for the game-mode stub, `TargetRules` for the two build
targets) while overriding no virtual behaviour of its own. -/
theorem C7_amended_purity_and_external_bases :
    (∀ (α G : Type) (base : TargetRules α) (g g2 : G),
      (DolbyIODebugTarget_ctor_withGlobal base g).2 = g ∧
      (DolbyIODebugTarget_ctor_withGlobal base g).1 = (DolbyIODebugTarget_ctor_withGlobal base g2).1 ∧
      (DolbyIODebugEditorTarget_ctor_withGlobal base g).2 = g ∧
      (DolbyIODebugEditorTarget_ctor_withGlobal base g).1 =
        (DolbyIODebugEditorTarget_ctor_withGlobal base g2).1) ∧
    (∀ c ∈ repositoryDefinedClasses,
      (c.baseClass = some "AGameModeBase" ∨ c.baseClass = some "TargetRules") ∧
      c.overriddenVirtuals = []) := by
  constructor
  · intro α G base g g2
    exact ⟨rfl, rfl, rfl, rfl⟩
  · intro c hc
    simp only [repositoryDefinedClasses, List.mem_cons, List.mem_singleton,
      List.not_mem_nil, or_false] at hc
    rcases hc with h | h | h <;> subst h <;>
      simp [aDolbyIODebugGameModeBaseDecl, dolbyIODebugTargetDecl, dolbyIODebugEditorTargetDecl]

/-- Witness for C7 amended: the second conjunct applied to the game-mode stub
declaration, which is a member of the repository class inventory. -/
theorem C7_amended_purity_and_external_bases_witness :
    (aDolbyIODebugGameModeBaseDecl.baseClass = some "AGameModeBase" ∨
     aDolbyIODebugGameModeBaseDecl.baseClass = some "TargetRules") ∧
    aDolbyIODebugGameModeBaseDecl.overriddenVirtuals = [] :=
  C7_amended_purity_and_external_bases.2 aDolbyIODebugGameModeBaseDecl
    (by simp [repositoryDefinedClasses])

/-- C8: every source document of the repository classifies as one of exactly
three kinds — Unreal build/module boilerplate, a Markdown bug report, or a
vendored DolbyIO SDK header — under the syntactic classification function;
no document falls outside the three classes. -/
theorem C8_every_file_classifies :
    ∀ f ∈ repositorySourceFiles, (classifyFile f).isSome = true := by
  decide

/-- Witness for C8: the classification applied to the vendored
`logger_sink.h` header, a member of the inventory. -/
theorem C8_every_file_classifies_witness :
    (classifyFile (sdkHeaderFile
      "Plugins/DolbyIO/sdk-release/include/dolbyio/comms/logger_sink.h")).isSome = true :=
  C8_every_file_classifies
    (sdkHeaderFile "Plugins/DolbyIO/sdk-release/include/dolbyio/comms/logger_sink.h")
    (by simp [repositorySourceFiles])

/-- C9: the repository's own code performs no concurrency coordination — no
action in any repository-authored body spawns a thread, acquires a lock, or
runs an asynchronous executor — and every asynchronous operation the
vendored headers declare (each declaration returning `async_result`,
resolved on the SDK event loop) is implemented outside this source tree, in
the SDK binary. -/
theorem C9_no_concurrency_coordination :
    (∀ a ∈ repositoryAuthoredActions, isConcurrencyCoordination a = false) ∧
    (∀ op ∈ vendoredHeaderOperations,
      op.returnsAsyncResult = true → op.implementedInHeader = false) := by
  constructor
  · decide
  · decide

/-- Witness for C9: the first conjunct applied to the base-constructor call
of the game-target constructor trace, and the second conjunct applied to the
conference-service join operation. -/
theorem C9_no_concurrency_coordination_witness :
    isConcurrencyCoordination CodeAction.callBaseConstructor = false ∧
    (asyncOp "services::conference::join" "conference.h").implementedInHeader = false :=
  ⟨C9_no_concurrency_coordination.1 CodeAction.callBaseConstructor
      (by simp [repositoryAuthoredActions, dolbyIODebugTargetCtorActions]),
   C9_no_concurrency_coordination.2
      (asyncOp "services::conference::join" "conference.h")
      (by decide) (by decide)⟩

end DolbyIODebug
